import Mathlib

/-!
Shallow embedding of the interview-preparation application
(`src/app/api/interview/route.ts`, `src/app/interview/page.tsx`,
`src/unnamed/part_000`, `src/unnamed/part_002`).

Conventions of the embedding:
* JavaScript strings are Lean `String`s; `s || t` on strings (falsy = `""`)
  is `jsOrString`.
* All numbers appearing in the scoring code are integer-valued, so they are
  modelled as `Nat`; `Math.round(x / 1)` on an integer is the integer, which
  is mirrored by `Nat` division by one.
* Case-insensitive regex tests in `starDetect` are alternations of literal
  ASCII substrings plus the digit class; they are modelled by ASCII
  lowercasing followed by substring search (`containsSub`), and `Char.isDigit`
  for the digit class.
* Network calls to the model are modelled by an outcome function
  `Nat → GenOutcome` (outcome of each attempt); the result of the
  free-text regex `retry in ([0-9.]+)s` on the error message is modelled by
  the field `GenError.retryHint`, and `err?.status ?? err?.code` by
  `GenError.status : Option Nat`.
* `JSON.parse` (with the TypeScript cast to `Blueprint`) is abstracted as a
  `decode` parameter; everything around it (brace slicing, response status
  selection) is embedded from the source.
-/

/-- `Mode` from `route.ts`: `"behavioral" | "technical" | "case"`. -/
inductive Mode
| behavioral
| technical
| case
deriving DecidableEq

/-- `InterviewType` from `part_002` / `page.tsx`:
`"behavioral_technical" | "behavioral_case"`. -/
inductive InterviewType
| behavioral_technical
| behavioral_case
deriving DecidableEq

/-- `Turn.role` from the interview pages. -/
inductive Role
| interviewer
| candidate
deriving DecidableEq

/-- `step` field of an interview request: `"start" | "followup"`. -/
inductive Step
| start
| followup
deriving DecidableEq

/-- One element of `Blueprint.sample_questions`. -/
structure SampleQuestion where
  type : Mode
  question : String
deriving DecidableEq

/-- `Blueprint` type from `part_002` (third route) / `page.tsx`. -/
structure Blueprint where
  role_focus : List String
  likely_interview_type : InterviewType
  risk_gaps : List String
  company_notes : List String
  sample_questions : List SampleQuestion
deriving DecidableEq

/-- One STAR field of the detector output: `\x7b present, evidence \x7d`. -/
structure StarField where
  present : Bool
  evidence : String
deriving DecidableEq

/-- Output record of `starDetect`. -/
structure StarResult where
  situation : StarField
  task : StarField
  action : StarField
  result : StarField
deriving DecidableEq

/-- A `Turn` of the transcript. -/
structure Turn where
  role : Role
  content : String
deriving DecidableEq

/-- JavaScript `a || b` on strings: the empty string is the only falsy value. -/
def jsOrString (a b : String) : String :=
  if a = "" then b else a

/-- JavaScript `s.trim()`: remove leading and trailing whitespace
(modelled over the character list with `Char.isWhitespace`, which covers the
ASCII whitespace appearing in this application's inputs). -/
def jsTrim (s : String) : String :=
  ⟨((s.data.dropWhile Char.isWhitespace).reverse.dropWhile Char.isWhitespace).reverse⟩

/-- `clamp(n, a, b) = Math.max(a, Math.min(b, n))` from `route.ts`. -/
def clamp (n a b : Nat) : Nat :=
  max a (min b n)

/-- `sub` is a prefix of `l` (character lists). -/
def leadsWith : List Char → List Char → Bool
  | [], _ => true
  | _ :: _, [] => false
  | a :: s, b :: t => a == b && leadsWith s t

/-- `sub` occurs as a contiguous substring of `l`. -/
def containsSub (sub : List Char) : List Char → Bool
  | [] => sub.isEmpty
  | c :: rest => leadsWith sub (c :: rest) || containsSub sub rest

/-- ASCII lowercasing of a string, as a character list (models the effect of
the case-insensitive `/i` flag on the ASCII-literal patterns of
`starDetect`). -/
def lowerList (s : String) : List Char :=
  s.data.map Char.toLower

/-- `pats.some(p => new RegExp(p, "i").test(answer))` for literal patterns:
the regex alternations of `starDetect` are disjunctions of literal
(lowercase) substrings. -/
def matchesAny (answer : String) (pats : List String) : Bool :=
  pats.any fun p => containsSub p.data (lowerList answer)

/-- `starDetect` from `route.ts` lines 83–96.  The four regex tests are
alternations of literal substrings; the `result` regex additionally contains
the digit class `\d+`, modelled by `Char.isDigit`. -/
def starDetect (answer : String) : StarResult :=
  let hasSituation := matchesAny answer
    ["when", "at the time", "in my role", "we had", "the context", "situation"]
  let hasTask := matchesAny answer
    ["my task", "goal", "responsible for", "i needed to", "objective"]
  let hasAction := matchesAny answer
    ["i did", "i led", "i built", "i analyzed", "i created", "i implemented",
     "i coordinated", "i communicated"]
  let hasResult := matchesAny answer
    ["result", "impact", "increased", "reduced", "improved", "grew",
     "decreased", "%", "percent"] || answer.data.any Char.isDigit
  { situation :=
      ⟨hasSituation, if hasSituation then "Mentions context." else "Add 1 line of context."⟩
    task :=
      ⟨hasTask, if hasTask then "States goal/ownership." else "Add your goal + responsibility."⟩
    action :=
      ⟨hasAction, if hasAction then "Shows what you did." else "Add 2–3 concrete actions."⟩
    result :=
      ⟨hasResult, if hasResult then "Shows outcomes/metrics." else "Add outcome + metric."⟩ }

/-- `starCount` from `route.ts` lines 224–228:
`Number(p₁) + Number(p₂) + Number(p₃) + Number(p₄)`. -/
def starCount (st : StarResult) : Nat :=
  st.situation.present.toNat + st.task.present.toNat +
    st.action.present.toNat + st.result.present.toNat

/-- `clarity = clamp(10 + starCount * 3, 0, 25)` (`route.ts` line 230). -/
def clarityScore (st : StarResult) : Nat :=
  clamp (10 + starCount st * 3) 0 25

/-- `structure = clamp(8 + starCount * 4, 0, 25)` (`route.ts` line 231);
named `structureScore` because `structure` is a Lean keyword. -/
def structureScore (st : StarResult) : Nat :=
  clamp (8 + starCount st * 4) 0 25

/-- `impact = clamp(6 + (star.result.present ? 12 : 3), 0, 25)`
(`route.ts` line 232). -/
def impactScore (st : StarResult) : Nat :=
  clamp (6 + (if st.result.present then 12 else 3)) 0 25

/-- `roleFit = clamp(10 + (mode === "behavioral" ? 6 : 4), 0, 25)`
(`route.ts` line 233). -/
def roleFitScore (mode : Mode) : Nat :=
  clamp (10 + (if mode = Mode.behavioral then 6 else 4)) 0 25

/-- `overall = clamp(Math.round((clarity + structure + impact + roleFit) / 1), 0, 100)`
(`route.ts` line 234); all summands are integers, so `Math.round(x / 1) = x`,
mirrored by `Nat` division by one. -/
def overallScore (st : StarResult) (mode : Mode) : Nat :=
  clamp ((clarityScore st + structureScore st + impactScore st + roleFitScore mode) / 1) 0 100

/-- Badge returned by `badgeForScore` in `src/app/interview/page.tsx`. -/
structure Badge where
  label : String
  className : String
deriving DecidableEq

/-- `badgeForScore` from `src/app/interview/page.tsx` lines 45–49. -/
def badgeForScore (overall : Nat) : Badge :=
  if 85 ≤ overall then
    ⟨"🟢 Strong", "border-emerald-500 bg-emerald-50 text-emerald-700"⟩
  else if 70 ≤ overall then
    ⟨"🟡 Good but sharpen", "border-yellow-500 bg-yellow-50 text-yellow-800"⟩
  else
    ⟨"🔴 Needs work", "border-red-500 bg-red-50 text-red-700"⟩

/-- The five numeric scores of the scorecard; the field `structural` models
the JSON field named `structure` (a Lean keyword). -/
structure ScoreSet where
  overall : Nat
  clarity : Nat
  structural : Nat
  impact : Nat
  roleFit : Nat
deriving DecidableEq

/-- `rewrite` part of the scorecard. -/
structure Rewrite where
  improvedAnswer : String
  bulletsToAdd : List String
deriving DecidableEq

/-- `Scorecard` type from `route.ts` lines 6–27. -/
structure Scorecard where
  mode : Mode
  star : StarResult
  scores : ScoreSet
  strengths : List String
  gaps : List String
  rewrite : Rewrite
deriving DecidableEq

/-- `coach` object built in `route.ts` lines 272–278. -/
structure Coach where
  mode : Mode
  star : String
  missing : String
  why : String
  intent : String
deriving DecidableEq

/-- `strengths` accumulation from `route.ts` lines 236–249 (order S, T, A, R). -/
def strengthsOf (st : StarResult) : List String :=
  (if st.situation.present then ["You set context (Situation)."] else []) ++
  (if st.task.present then ["You stated your goal/ownership (Task)."] else []) ++
  (if st.action.present then ["You included concrete actions (Action)."] else []) ++
  (if st.result.present then ["You included outcome/impact (Result)."] else [])

/-- `gaps` accumulation from `route.ts` lines 236–249 (order S, T, A, R). -/
def gapsOf (st : StarResult) : List String :=
  (if st.situation.present then [] else ["Add 1 sentence of context (Situation)."]) ++
  (if st.task.present then [] else ["State your goal + what success looked like (Task)."]) ++
  (if st.action.present then [] else ["Add 2–3 specific actions you took (Action)."]) ++
  (if st.result.present then [] else ["Add a measurable result (metric, % change, time saved)."])

/-- `improvedAnswer` template selection from `route.ts` lines 251–254. -/
def improvedAnswerFor (mode : Mode) : String :=
  if mode = Mode.behavioral then
    "Situation: [1 line context]\nTask: [your goal + ownership]\nAction: [2–3 steps you took]\nResult: [metric + impact + what you learned]"
  else
    "Answer: [clear approach]\nTrade-offs: [2–3]\nDecision: [what you’d choose + why]\nValidation: [how you’d test/measure]"

/-- Fixed `bulletsToAdd` list from `route.ts` lines 264–268. -/
def bulletsToAddList : List String :=
  ["Add one hard metric (%, $, time saved).",
   "Call out a trade-off and why you chose your approach.",
   "Mention stakeholder alignment or validation step."]

/-- The `scores` record assembled in `route.ts` line 259. -/
def scoreSetOf (st : StarResult) (mode : Mode) : ScoreSet :=
  ⟨overallScore st mode, clarityScore st, structureScore st, impactScore st, roleFitScore mode⟩

/-- The scorecard assembled in `route.ts` lines 256–270. -/
def scorecardOf (st : StarResult) (mode : Mode) : Scorecard :=
  ⟨mode, st, scoreSetOf st mode, strengthsOf st, gapsOf st,
    ⟨improvedAnswerFor mode, bulletsToAddList⟩⟩

/-- `present ? "Y" : "N"` used in the coach star line. -/
def ynStr (b : Bool) : String :=
  if b then "Y" else "N"

/-- The compact STAR line of the coach object (`route.ts` line 274). -/
def coachStarLine (st : StarResult) : String :=
  "S:" ++ ynStr st.situation.present ++ " T:" ++ ynStr st.task.present ++
    " A:" ++ ynStr st.action.present ++ " R:" ++ ynStr st.result.present

/-- The coach object assembled in `route.ts` lines 272–278;
`missing` is `gaps.slice(0, 2).join(" | ") || "None"`. -/
def coachOf (st : StarResult) (mode : Mode) : Coach :=
  ⟨mode, coachStarLine st,
    jsOrString (String.intercalate " | " ((gapsOf st).take 2)) "None",
    "Strong answers are structured and measurable. STAR makes it easy to evaluate quickly.",
    "Follow-up targets depth and validates your claim."⟩

/-- Fallback follow-up question text (`route.ts` line 281). -/
def defaultFollowupQ : String :=
  "What was the biggest challenge, and how did you handle it?"

/-- Model-call error, as classified by `generateWithRetry`:
`status` models `err?.status ?? err?.code`; `msg` is `err?.message ?? ""`;
`retryHint` models the result of `msg.match(/retry in\s+([0-9.]+)s/i)`
(`Number` of the captured group when the message carries the hint). -/
structure GenError where
  status : Option Nat
  msg : String
  retryHint : Option ℚ
deriving DecidableEq

/-- `status === 404` (bad model identifier). -/
def GenError.isNotFound (e : GenError) : Bool :=
  e.status == some 404

/-- `status === 429 || status === 503` (rate limit / overload). -/
def GenError.transient (e : GenError) : Bool :=
  e.status == some 429 || e.status == some 503

/-- Outcome of one `ai.models.generateContent` attempt. -/
inductive GenOutcome
| success (raw : String)
| failure (e : GenError)
deriving DecidableEq

/-- Return value of `generateWithRetry`:
`ok raw` for `\x7b ok: true, raw \x7d`, `failed fatal e` for
`\x7b ok: false, fatal, err \x7d`. -/
inductive RetryResult
| ok (raw : String)
| failed (fatal : Bool) (e : GenError)
deriving DecidableEq

/-- Observable behaviour of one `generateWithRetry` call: its return value,
the sequence of backoff waits performed (in seconds), and the number of
attempts issued to the model. -/
structure GwrOut where
  result : RetryResult
  waits : List ℚ
  attempts : Nat
deriving DecidableEq

/-- The error produced when the retry loop falls through
(`new Error("Retry exhausted")` / `new Error("Retry loop exhausted")`). -/
def retryExhaustedError : GenError :=
  ⟨none, "Retry exhausted", none⟩

/-- One backoff wait: `Math.min(cap, match ? Number(match[1]) : 2 + attempt * 2)`
seconds (the code multiplies by 1000 to sleep in milliseconds). -/
def retryWait (cap : ℚ) (attempt : Nat) (e : GenError) : ℚ :=
  min cap (e.retryHint.getD (2 + (attempt : ℚ) * 2))

/-- The retry loop of `generateWithRetry` (`route.ts` lines 33–69 and
`part_002` lines 208–249), parameterised by `maxRetries` and the wait cap.
`fuel` is the number of remaining loop iterations (`maxRetries + 1` at
entry); `fuel = 0` is the fall-through return after the loop. -/
def gwrGo (oc : Nat → GenOutcome) (m : Nat) (cap : ℚ) : Nat → Nat → GwrOut
  | 0, _ => ⟨RetryResult.failed false retryExhaustedError, [], 0⟩
  | fuel + 1, a =>
    match oc a with
    | GenOutcome.success raw => ⟨RetryResult.ok raw, [], 1⟩
    | GenOutcome.failure e =>
      if e.isNotFound then ⟨RetryResult.failed true e, [], 1⟩
      else if e.transient then
        if a = m then ⟨RetryResult.failed false e, [], 1⟩
        else
          let rest := gwrGo oc m cap fuel (a + 1)
          ⟨rest.result, retryWait cap a e :: rest.waits, rest.attempts + 1⟩
      else ⟨RetryResult.failed true e, [], 1⟩

/-- `generateWithRetry` of `route.ts` (lines 33–69): `maxRetries = 2`,
wait capped at 20 seconds. -/
def generateWithRetry (oc : Nat → GenOutcome) : GwrOut :=
  gwrGo oc 2 20 3 0

/-- `generateWithRetry` of `part_002` (lines 208–249): `maxRetries = 3`,
wait capped at 30 seconds. -/
def generateWithRetryBp (oc : Nat → GenOutcome) : GwrOut :=
  gwrGo oc 3 30 4 0

/-- Result of the follow-up model loop in `route.ts` lines 207–219:
`gotQ q` when the loop finishes with `followQ = q` (a success broke the
loop, or every candidate failed with status 404 and `followQ` stayed `""`);
`stopped e` when a non-404 failure caused the early
`return NextResponse.json(\x7b error \x7d, \x7b status: 500 \x7d)`. -/
inductive FollowOut
| gotQ (q : String)
| stopped (e : GenError)
deriving DecidableEq

/-- The follow-up model loop of `route.ts` lines 210–219, over the
`generateWithRetry` results of the successive model candidates.
On success: `followQ = (out.raw || "").trim()` and break.
On failure: continue when `status === 404`, otherwise return the error. -/
def followupLoop : List RetryResult → FollowOut
  | [] => FollowOut.gotQ ""
  | RetryResult.ok raw :: _ => FollowOut.gotQ (jsTrim raw)
  | RetryResult.failed _ e :: rs =>
    if e.isNotFound then followupLoop rs else FollowOut.stopped e

/-- Response of the followup step of the interview route. -/
inductive FollowupResponse
| errorResp (status : Nat) (msg : String)
| success (interviewer : String) (coach : Coach) (scorecard : Scorecard)
deriving DecidableEq

/-- The followup branch of `route.ts` `POST` (lines 207–284), after input
validation: run the model loop; on an early failure return the 500 error
response; otherwise run `starDetect` + scoring synchronously and return
`interviewer = followQ || default`, the coach, and the scorecard. -/
def followupResponse (results : List RetryResult) (candidateAnswer : String)
    (mode : Mode) : FollowupResponse :=
  match followupLoop results with
  | FollowOut.stopped e => FollowupResponse.errorResp 500 (jsOrString e.msg "Follow-up failed")
  | FollowOut.gotQ q =>
    let st := starDetect candidateAnswer
    FollowupResponse.success (jsOrString q defaultFollowupQ) (coachOf st mode) (scorecardOf st mode)

/-- Result of the model-candidate loop of the blueprint route
(`part_002` lines 316–348) combined with the `if (!raw)` check:
`gotRaw raw` when a model produced nonempty text; `earlyFatal e` for the
early `return ... 500` on a fatal non-404 error; `noRaw last` for the
post-loop `"No model succeeded"` 500 response (`last` is the last recorded
error, whose message is surfaced as `detail`). -/
inductive BpLoopOut
| gotRaw (raw : String)
| earlyFatal (e : GenError)
| noRaw (last : Option GenError)
deriving DecidableEq

/-- The blueprint model loop of `part_002` lines 316–348: success breaks
with `raw`; `fatal === false` (retries exhausted) continues to the next
candidate; `fatal === true` with status 404 continues; any other fatal error
returns early; after the loop, empty `raw` yields the `noRaw` response. -/
def bpLoopFull : List RetryResult → Option GenError → BpLoopOut
  | [], last => BpLoopOut.noRaw last
  | RetryResult.ok raw :: _, last =>
    if raw = "" then BpLoopOut.noRaw last else BpLoopOut.gotRaw raw
  | RetryResult.failed fatal e :: rs, _last =>
    if fatal = false then bpLoopFull rs (some e)
    else if e.isNotFound then bpLoopFull rs (some e)
    else BpLoopOut.earlyFatal e

/-- A result on which the blueprint loop moves on to the next candidate
model identifier (a failure that is non-fatal, or fatal with status 404). -/
def isContinueResult : RetryResult → Bool
  | RetryResult.ok _ => false
  | RetryResult.failed fatal e => !fatal || e.isNotFound

/-- `"\x7b".charCodeAt(0) = 123`. -/
def openBraceChar : Char := Char.ofNat 123

/-- `"\x7d".charCodeAt(0) = 125`. -/
def closeBraceChar : Char := Char.ofNat 125

/-- JavaScript `indexOf` of a character: index of first occurrence
(`none` models `-1`). -/
def firstIdxOf (c : Char) : List Char → Option Nat
  | [] => none
  | a :: rest => if a == c then some 0 else (firstIdxOf c rest).map (· + 1)

/-- JavaScript `lastIndexOf` of a character (`none` models `-1`). -/
def lastIdxOf (c : Char) (l : List Char) : Option Nat :=
  (firstIdxOf c l.reverse).map (fun i => l.length - 1 - i)

/-- `safeJsonParse` from `part_002` lines 191–202: slice from the first
brace to the last closing brace when both are found (JavaScript
`raw.slice(start, end + 1)`, clamped like `slice`), otherwise keep `raw`,
then `JSON.parse` the result (`decode` abstracts `JSON.parse` together with
the unchecked cast to `Blueprint`; it throws, i.e. returns `.error`, on
invalid JSON). -/
def safeJsonParse (decode : List Char → Except String Blueprint)
    (raw : String) : Except String Blueprint :=
  let sliced :=
    match firstIdxOf openBraceChar raw.data, lastIdxOf closeBraceChar raw.data with
    | some s, some e => (raw.data.drop s).take (e + 1 - s)
    | _, _ => raw.data
  decode sliced

/-- Body of a blueprint-route response. -/
inductive BpBody
| missingInputs
| missingKey
| modelError (msg : String)
| noModel (detail : Option String)
| parseFailure (errMsg : String) (raw : String) (parseError : String)
| blueprintOk (bp : Blueprint)
deriving DecidableEq

/-- An HTTP-style response of the blueprint route. -/
structure BpResponse where
  status : Nat
  body : BpBody
deriving DecidableEq

/-- The blueprint `POST` of `part_002` lines 251–367: 400 when an input is
missing, 500 when no API key is configured, then the model loop (500 on an
early fatal error or when no model produced text), then `safeJsonParse`
(200 carrying the raw text and parse error on failure, 200 with the
blueprint on success). -/
def bpPost (decode : List Char → Except String Blueprint)
    (resumeText jobDescription company : String)
    (apiKey : Option String) (results : List RetryResult) : BpResponse :=
  if resumeText = "" ∨ jobDescription = "" ∨ company = "" then
    ⟨400, BpBody.missingInputs⟩
  else
    match apiKey with
    | none => ⟨500, BpBody.missingKey⟩
    | some _ =>
      match bpLoopFull results none with
      | BpLoopOut.earlyFatal e => ⟨500, BpBody.modelError e.msg⟩
      | BpLoopOut.noRaw last => ⟨500, BpBody.noModel (last.map GenError.msg)⟩
      | BpLoopOut.gotRaw raw =>
        match safeJsonParse decode raw with
        | Except.error perr => ⟨200, BpBody.parseFailure "Invalid JSON from model" raw perr⟩
        | Except.ok bp => ⟨200, BpBody.blueprintOk bp⟩

/-- `allowedModes` from `src/app/interview/page.tsx` lines 88–93. -/
def allowedModes : Option Blueprint → List Mode
  | none => [Mode.behavioral, Mode.technical, Mode.case]
  | some bp =>
    if bp.likely_interview_type = InterviewType.behavioral_technical then
      [Mode.behavioral, Mode.technical]
    else
      [Mode.behavioral, Mode.case]

/-- The mode `<select>` of the voice-mode interview page (`part_000`
lines 355–367) offers all three options unconditionally. -/
def voicePageModeOptions : List Mode :=
  [Mode.behavioral, Mode.technical, Mode.case]

/-- The fields of an interview request read by the validation of
`route.ts` `POST` lines 106–116. -/
structure InterviewReqHead where
  step : Option Step
  company : String
  mode : Mode
  blueprint : Option Blueprint
deriving DecidableEq

/-- The validation of `route.ts` lines 111–116:
`!step || !company || !blueprint` rejects with 400; `mode` is never
checked. -/
def routeAccepts (r : InterviewReqHead) : Bool :=
  r.step.isSome && !(r.company == "") && r.blueprint.isSome

/-- The client state read by `submitAnswer`
(`src/app/interview/page.tsx` lines 289–296; `part_000` lines 246–255 is
identical in these guards). -/
structure PageState where
  ready : Bool
  draftAnswer : String
  answer : String
  transcript : List Turn
  error : String
deriving DecidableEq

/-- Observable outcome of one `submitAnswer` call up to the point the
`fetch` to the interview API is issued. -/
structure SubmitOutcome where
  transcript : List Turn
  error : String
  fetchIssued : Bool
deriving DecidableEq

/-- `submitAnswer` guards from `src/app/interview/page.tsx` lines 289–310
(identical in `part_000` lines 246–267): return when not ready; compute
`finalAnswer = (draftAnswer || answer).trim()` and return silently when it
is empty; set the error and return when the transcript is empty; otherwise
clear the error, append the candidate turn and issue the model call. -/
def submitAnswerStep (s : PageState) : SubmitOutcome :=
  if s.ready = false then ⟨s.transcript, s.error, false⟩
  else
    let finalAnswer := jsTrim (jsOrString s.draftAnswer s.answer)
    if finalAnswer = "" then ⟨s.transcript, s.error, false⟩
    else if s.transcript.length = 0 then
      ⟨s.transcript, "Click Start Interview first.", false⟩
    else
      ⟨s.transcript ++ [⟨Role.candidate, finalAnswer⟩], "", true⟩

/-- A transient overload error (HTTP 503), as raised by the model SDK,
with no parsable retry hint in its message. -/
def e503sample : GenError :=
  ⟨some 503, "The model is overloaded. Please try again later.", none⟩

/-- A bad-model-identifier error (HTTP 404). -/
def e404sample : GenError :=
  ⟨some 404, "models/gemini-x is not found for API version v1beta", none⟩

/-- An outcome trace in which every attempt fails with the 503 overload
error (a model outage). -/
def oc503const : Nat → GenOutcome :=
  fun _ => GenOutcome.failure e503sample

/-- An outcome trace in which every attempt fails with the 404 error. -/
def oc404const : Nat → GenOutcome :=
  fun _ => GenOutcome.failure e404sample

/-- A blueprint whose `likely_interview_type` is `behavioral_case`. -/
def bpCaseSample : Blueprint :=
  ⟨["strategy"], InterviewType.behavioral_case, [], [], []⟩

/-- A client state with one interviewer turn and a whitespace-only draft
answer. -/
def wsState : PageState :=
  ⟨true, "   ", "", [⟨Role.interviewer, "Tell me about a challenge you faced."⟩], ""⟩

/-- A client state with an empty transcript and a nonempty answer. -/
def noStartState : PageState :=
  ⟨true, "", "I led a migration.", [], ""⟩

/-- A decode function that rejects every input (used only to instantiate
theorems at concrete inputs). -/
def rejectDecode : List Char → Except String Blueprint :=
  fun _ => Except.error "Unexpected token"

/-- A STAR record with all four flags false. -/
def stAllFalse : StarResult :=
  ⟨⟨false, ""⟩, ⟨false, ""⟩, ⟨false, ""⟩, ⟨false, ""⟩⟩

/-- A STAR record with situation, task and action present but no result. -/
def stSTA : StarResult :=
  ⟨⟨true, ""⟩, ⟨true, ""⟩, ⟨true, ""⟩, ⟨false, ""⟩⟩

/-- A singleton pattern occurs in any list containing its character. -/
theorem containsSub_singleton (c : Char) :
    ∀ l : List Char, c ∈ l → containsSub [c] l = true := by
  intro l hl
  induction l with
  | nil => cases hl
  | cons a t ih =>
    rcases List.mem_cons.mp hl with h | h
    · subst h
      simp [containsSub, leadsWith]
    · simp [containsSub, ih h]

/-- The retry loop issues at most `fuel` attempts. -/
theorem gwrGo_attempts_le (oc : Nat → GenOutcome) (m : Nat) (cap : ℚ) :
    ∀ fuel a : Nat, (gwrGo oc m cap fuel a).attempts ≤ fuel := by
  intro fuel
  induction fuel with
  | zero => intro a; simp [gwrGo]
  | succ n ih =>
    intro a
    cases hoc : oc a with
    | success raw => simp [gwrGo, hoc]
    | failure e =>
      by_cases h404 : e.isNotFound = true
      · simp [gwrGo, hoc, h404]
      · by_cases htr : e.transient = true
        · by_cases ham : a = m
          · subst ham; simp [gwrGo, hoc, h404, htr]
          · simp only [gwrGo, hoc, h404, htr, ham, if_true, if_false]
            simp only [Bool.false_eq_true, if_false]
            exact Nat.succ_le_succ (ih (a + 1))
        · simp [gwrGo, hoc, h404, htr]

/-- Every attempt that is followed by a further attempt failed with a
transient (429/503) error. -/
theorem gwrGo_retried_transient (oc : Nat → GenOutcome) (m : Nat) (cap : ℚ) :
    ∀ fuel a i : Nat, i + 1 < (gwrGo oc m cap fuel a).attempts →
      ∃ e, oc (a + i) = GenOutcome.failure e ∧ e.transient = true := by
  intro fuel
  induction fuel with
  | zero => intro a i h; simp [gwrGo] at h
  | succ n ih =>
    intro a i h
    cases hoc : oc a with
    | success raw => simp [gwrGo, hoc] at h
    | failure e =>
      by_cases h404 : e.isNotFound = true
      · simp [gwrGo, hoc, h404] at h
      · by_cases htr : e.transient = true
        · by_cases ham : a = m
          · subst ham; simp [gwrGo, hoc, h404, htr] at h
          · simp only [gwrGo, hoc, h404, htr, ham, Bool.false_eq_true, if_false, if_true] at h
            cases i with
            | zero => exact ⟨e, by simpa using hoc, htr⟩
            | succ j =>
              obtain ⟨e', he', ht'⟩ := ih (a + 1) j (by omega)
              exact ⟨e', by rw [show a + (j + 1) = a + 1 + j by omega]; exact he', ht'⟩
        · simp [gwrGo, hoc, h404, htr] at h

/-- Each performed wait is `min cap (hint or 2 + 2·attempt)` seconds for the
transient failure of the corresponding attempt. -/
theorem gwrGo_wait_spec (oc : Nat → GenOutcome) (m : Nat) (cap : ℚ) :
    ∀ fuel a i : Nat, i < (gwrGo oc m cap fuel a).waits.length →
      ∃ e, oc (a + i) = GenOutcome.failure e ∧ e.transient = true ∧
        (gwrGo oc m cap fuel a).waits.getD i 0 = retryWait cap (a + i) e := by
  intro fuel
  induction fuel with
  | zero => intro a i h; simp [gwrGo] at h
  | succ n ih =>
    intro a i h
    cases hoc : oc a with
    | success raw => simp [gwrGo, hoc] at h
    | failure e =>
      by_cases h404 : e.isNotFound = true
      · simp [gwrGo, hoc, h404] at h
      · by_cases htr : e.transient = true
        · by_cases ham : a = m
          · subst ham; simp [gwrGo, hoc, h404, htr] at h
          · simp only [gwrGo, hoc, h404, htr, ham, Bool.false_eq_true, if_false, if_true] at h ⊢
            cases i with
            | zero =>
              exact ⟨e, by simpa using hoc, htr, by simp⟩
            | succ j =>
              obtain ⟨e', he', ht', hw⟩ := ih (a + 1) j (by simpa using h)
              refine ⟨e', by rw [show a + (j + 1) = a + 1 + j by omega]; exact he', ht', ?_⟩
              simpa [show a + 1 + j = a + (j + 1) by omega] using hw
        · simp [gwrGo, hoc, h404, htr] at h

/-- A first attempt failing non-transiently makes the loop return at once:
fatal result, no wait, a single attempt. -/
theorem gwrGo_immediate (oc : Nat → GenOutcome) (m : Nat) (cap : ℚ) (fuel a : Nat)
    (e : GenError) (hoc : oc a = GenOutcome.failure e) (ht : e.transient = false) :
    gwrGo oc m cap (fuel + 1) a = ⟨RetryResult.failed true e, [], 1⟩ := by
  by_cases h404 : e.isNotFound = true
  · simp [gwrGo, hoc, h404]
  · simp [gwrGo, hoc, h404, ht]

/-- When every candidate's result is a 404 failure, the follow-up loop
finishes with `followQ` still empty. -/
theorem followupLoop_all404 :
    ∀ results : List RetryResult,
      (∀ r ∈ results, ∃ ft e, r = RetryResult.failed ft e ∧ e.isNotFound = true) →
      followupLoop results = FollowOut.gotQ "" := by
  intro results
  induction results with
  | nil => intro _; rfl
  | cons r rs ih =>
    intro h
    obtain ⟨ft, e, rfl, he⟩ := h r (List.mem_cons_self r rs)
    simp only [followupLoop, he, if_true]
    exact ih fun x hx => h x (List.mem_cons_of_mem _ hx)

/-- The blueprint loop stops early only on a fatal error that is not a 404. -/
theorem bpLoopFull_earlyFatal_not404 :
    ∀ (results : List RetryResult) (last : Option GenError) (e : GenError),
      bpLoopFull results last = BpLoopOut.earlyFatal e → e.isNotFound = false := by
  intro results
  induction results with
  | nil => intro last e h; simp [bpLoopFull] at h
  | cons r rs ih =>
    intro last e h
    cases r with
    | ok raw =>
      by_cases hr : raw = "" <;> simp [bpLoopFull, hr] at h
    | failed fatal e' =>
      by_cases hf : fatal = false
      · rw [bpLoopFull, if_pos hf] at h
        exact ih _ _ h
      · by_cases h404 : e'.isNotFound = true
        · rw [bpLoopFull, if_neg hf, if_pos h404] at h
          exact ih _ _ h
        · rw [bpLoopFull, if_neg hf, if_neg h404] at h
          cases h
          exact Bool.not_eq_true _ |>.mp h404

/-- When every candidate's result makes the loop continue, the loop ends in
the post-loop `noRaw` state. -/
theorem bpLoopFull_all_continue :
    ∀ (results : List RetryResult) (last : Option GenError),
      (∀ r ∈ results, isContinueResult r = true) →
      ∃ l, bpLoopFull results last = BpLoopOut.noRaw l := by
  intro results
  induction results with
  | nil => intro last _; exact ⟨last, rfl⟩
  | cons r rs ih =>
    intro last h
    have hr := h r (List.mem_cons_self r rs)
    have hrest := fun x hx => h x (List.mem_cons_of_mem r hx)
    cases r with
    | ok raw => simp [isContinueResult] at hr
    | failed fatal e =>
      by_cases hf : fatal = false
      · rw [bpLoopFull, if_pos hf]
        exact ih _ hrest
      · have h404 : e.isNotFound = true := by
          simp only [isContinueResult] at hr
          rcases Bool.or_eq_true _ _ |>.mp hr with hx | hx
          · exact absurd (by simpa using hx) hf
          · exact hx
        rw [bpLoopFull, if_neg hf, if_pos h404]
        exact ih _ hrest

/-- Claim C1: for every candidate answer text and every mode, the scoring
engine computes `starCount` as the number of true presence flags among
situation/task/action/result, and produces
`clarity = clamp(10 + 3·starCount, 0, 25)`,
`structure = clamp(8 + 4·starCount, 0, 25)`,
`impact = clamp(6 + (12 if result.present else 3), 0, 25)`,
`roleFit = clamp(10 + (6 if mode = behavioral else 4), 0, 25)`, and
`overall = clamp(clarity + structure + impact + roleFit, 0, 100)`. -/
theorem C1_scoring_formulas (answer : String) (mode : Mode) :
    starCount (starDetect answer) =
      List.count true
        [(starDetect answer).situation.present, (starDetect answer).task.present,
         (starDetect answer).action.present, (starDetect answer).result.present] ∧
    clarityScore (starDetect answer) = clamp (10 + 3 * starCount (starDetect answer)) 0 25 ∧
    structureScore (starDetect answer) = clamp (8 + 4 * starCount (starDetect answer)) 0 25 ∧
    impactScore (starDetect answer) =
      clamp (6 + (if (starDetect answer).result.present then 12 else 3)) 0 25 ∧
    roleFitScore mode = clamp (10 + (if mode = Mode.behavioral then 6 else 4)) 0 25 ∧
    overallScore (starDetect answer) mode =
      clamp (clarityScore (starDetect answer) + structureScore (starDetect answer) +
        impactScore (starDetect answer) + roleFitScore mode) 0 100 := by
  generalize starDetect answer = st
  refine ⟨?_, ?_, ?_, rfl, rfl, ?_⟩
  · cases hs : st.situation.present <;> cases ht : st.task.present <;>
      cases ha : st.action.present <;> cases hr : st.result.present <;>
      simp [starCount, hs, ht, ha, hr]
  · rw [clarityScore, Nat.mul_comm]
  · rw [structureScore, Nat.mul_comm]
  · rw [overallScore, Nat.div_one]

/-- Claim C10: none of the clamp bounds in the scoring formulas ever binds:
clarity lies in [10, 22], structure in [8, 24], impact is 9 or 18, roleFit
is 14 or 16, overall equals the exact sum and lies in [41, 80]; in
particular overall never reaches 85, so the UI badge is never the
highest ("Strong") one. -/
theorem C10_clamps_never_bind (answer : String) (mode : Mode) :
    (10 ≤ clarityScore (starDetect answer) ∧ clarityScore (starDetect answer) ≤ 22) ∧
    (8 ≤ structureScore (starDetect answer) ∧ structureScore (starDetect answer) ≤ 24) ∧
    (impactScore (starDetect answer) = 9 ∨ impactScore (starDetect answer) = 18) ∧
    (roleFitScore mode = 14 ∨ roleFitScore mode = 16) ∧
    overallScore (starDetect answer) mode =
      clarityScore (starDetect answer) + structureScore (starDetect answer) +
        impactScore (starDetect answer) + roleFitScore mode ∧
    (41 ≤ overallScore (starDetect answer) mode ∧
      overallScore (starDetect answer) mode ≤ 80) ∧
    (badgeForScore (overallScore (starDetect answer) mode)).label ≠ "🟢 Strong" := by
  generalize starDetect answer = st
  cases hs : st.situation.present <;> cases ht : st.task.present <;>
    cases ha : st.action.present <;> cases hr : st.result.present <;> cases mode <;>
    simp only [clarityScore, structureScore, impactScore, roleFitScore, overallScore,
      starCount, hs, ht, ha, hr] <;> decide

/-- Claim C7: for a fixed mode and a fixed value of `result.present`, each
of clarity, structure, impact, roleFit and overall is non-decreasing in
`starCount`. -/
theorem C7_starcount_monotone (st1 st2 : StarResult) (mode : Mode)
    (hres : st1.result.present = st2.result.present)
    (hle : starCount st1 ≤ starCount st2) :
    clarityScore st1 ≤ clarityScore st2 ∧
    structureScore st1 ≤ structureScore st2 ∧
    impactScore st1 ≤ impactScore st2 ∧
    roleFitScore mode ≤ roleFitScore mode ∧
    overallScore st1 mode ≤ overallScore st2 mode := by
  have h1 : clarityScore st1 ≤ clarityScore st2 := by
    simp only [clarityScore, clamp]; omega
  have h2 : structureScore st1 ≤ structureScore st2 := by
    simp only [structureScore, clamp]; omega
  have h3 : impactScore st1 = impactScore st2 := by
    rw [impactScore, impactScore, hres]
  refine ⟨h1, h2, le_of_eq h3, le_refl _, ?_⟩
  simp only [overallScore, Nat.div_one, clamp]
  omega

/-- Witness for C7 at concrete STAR records: all-flags-false versus
situation/task/action present (result.present false in both). -/
theorem C7_witness :
    clarityScore stAllFalse ≤ clarityScore stSTA ∧
    structureScore stAllFalse ≤ structureScore stSTA ∧
    impactScore stAllFalse ≤ impactScore stSTA ∧
    roleFitScore Mode.behavioral ≤ roleFitScore Mode.behavioral ∧
    overallScore stAllFalse Mode.behavioral ≤ overallScore stSTA Mode.behavioral :=
  C7_starcount_monotone stAllFalse stSTA Mode.behavioral rfl (by decide)

/-- Claim C5: the STAR detector is a pure function of the answer string such
that any answer containing a numeral or a percent sign has
`result.present = true`, and the empty string has all four presence flags
false. -/
theorem C5_star_detector :
    (∀ answer : String,
        (answer.data.any Char.isDigit = true ∨ '%' ∈ answer.data) →
        (starDetect answer).result.present = true) ∧
    ((starDetect "").situation.present = false ∧ (starDetect "").task.present = false ∧
      (starDetect "").action.present = false ∧ (starDetect "").result.present = false) := by
  constructor
  · intro answer h
    simp only [starDetect]
    rcases h with h | h
    · simp [h]
    · have hpct : containsSub ['%'] (lowerList answer) = true := by
        refine containsSub_singleton '%' (lowerList answer) ?_
        have : Char.toLower '%' = '%' := by decide
        exact this ▸ List.mem_map_of_mem Char.toLower h
      have hm : matchesAny answer
          ["result", "impact", "increased", "reduced", "improved", "grew",
           "decreased", "%", "percent"] = true := by
        rw [matchesAny, List.any_eq_true]
        exact ⟨"%", by decide, hpct⟩
      simp [hm]
  · decide

/-- Witness for C5 at a concrete answer containing both a numeral and a
percent sign. -/
theorem C5_witness : (starDetect "Signups went up 20%").result.present = true :=
  C5_star_detector.1 "Signups went up 20%" (Or.inl (by decide))

/-- Counterexample to claim C6 as stated: a `submitAnswer` call with a
whitespace-only candidate answer (and a non-empty transcript) does NOT fail
with an InvalidState-style error — it returns silently, leaving the error
field empty.  (It does leave the transcript unchanged and issues no model
call.) -/
theorem C6_counterexample :
    (submitAnswerStep wsState).error = "" ∧
    (submitAnswerStep wsState).fetchIssued = false ∧
    (submitAnswerStep wsState).transcript = wsState.transcript := by
  decide

/-- Claim C6 (amended): a `submitAnswer` call with an empty transcript or an
empty/whitespace-only answer appends no candidate turn and issues no model
call; when the answer is non-blank and the transcript is empty (and the page
is ready) the call sets the "Click Start Interview first." error, but a
blank answer is ignored silently, with no error signalled. -/
theorem C6_submit_guards (s : PageState)
    (h : jsTrim (jsOrString s.draftAnswer s.answer) = "" ∨ s.transcript = []) :
    (submitAnswerStep s).transcript = s.transcript ∧
    (submitAnswerStep s).fetchIssued = false ∧
    (s.ready = true → jsTrim (jsOrString s.draftAnswer s.answer) ≠ "" → s.transcript = [] →
      (submitAnswerStep s).error = "Click Start Interview first.") := by
  by_cases hready : s.ready = false
  · simp [submitAnswerStep, hready]
  · have hr : s.ready = true := by revert hready; cases s.ready <;> simp
    rcases h with h | h
    · simp [submitAnswerStep, hr, h]
    · by_cases ha : jsTrim (jsOrString s.draftAnswer s.answer) = ""
      · simp [submitAnswerStep, hr, ha]
      · simp [submitAnswerStep, hr, ha, h]

/-- Witness for C6 at a concrete state: empty transcript, non-blank answer. -/
theorem C6_witness :
    (submitAnswerStep noStartState).transcript = [] ∧
    (submitAnswerStep noStartState).error = "Click Start Interview first." :=
  ⟨(C6_submit_guards noStartState (Or.inr rfl)).1.trans rfl,
   (C6_submit_guards noStartState (Or.inr rfl)).2.2 rfl (by decide) rfl⟩

/-- Counterexample to claim C2 as stated: a follow-up model call that fails
with exhausted transient retries (a 503 model outage, non-404) makes the
endpoint return a 500 error response — without the coach, the scorecard, or
any fallback follow-up text.  Only the all-404 failure path reaches the
fallback. -/
theorem C2_counterexample :
    followupResponse [RetryResult.failed false e503sample]
        "I led the migration and cut costs 20%" Mode.behavioral =
      FollowupResponse.errorResp 500 "The model is overloaded. Please try again later." := by
  rfl

/-- Claim C2 (amended): only when the follow-up model call fails with
NotFound (404) on every fallback identifier does the interview endpoint
still return the synchronously computed coach and scorecard together with
the fallback default follow-up question text; a non-404 failure (such as
exhausted transient retries) instead aborts with a 500 error response that
carries no scoring feedback. -/
theorem C2_followup_fallback (results : List RetryResult) (answer : String) (mode : Mode)
    (h : ∀ r ∈ results, ∃ ft e, r = RetryResult.failed ft e ∧ e.isNotFound = true) :
    followupResponse results answer mode =
      FollowupResponse.success defaultFollowupQ (coachOf (starDetect answer) mode)
        (scorecardOf (starDetect answer) mode) := by
  unfold followupResponse
  rw [followupLoop_all404 results h]
  simp [jsOrString]

/-- Witness for C2 at a concrete all-404 result list. -/
theorem C2_witness :
    followupResponse [RetryResult.failed true e404sample] "answer" Mode.behavioral =
      FollowupResponse.success defaultFollowupQ (coachOf (starDetect "answer") Mode.behavioral)
        (scorecardOf (starDetect "answer") Mode.behavioral) :=
  C2_followup_fallback [RetryResult.failed true e404sample] "answer" Mode.behavioral (by
    intro r hr
    rw [List.mem_singleton] at hr
    exact ⟨true, e404sample, hr, by decide⟩)

/-- Counterexample to claim C3 as stated: under a sustained 503 overload
with no retry hint in the message, the blueprint gateway waits 2, 4 and 6
seconds — an arithmetically (linearly) increasing sequence, which no
exponential law `c · rⁱ` fits; the claimed "exponentially-increasing
default" is false. -/
theorem C3_counterexample :
    (generateWithRetryBp oc503const).waits = [2, 4, 6] ∧
    ∀ c r : ℚ, ¬(c * r ^ 0 = 2 ∧ c * r ^ 1 = 4 ∧ c * r ^ 2 = 6) := by
  constructor
  · show (gwrGo oc503const 3 30 4 0).waits = [2, 4, 6]
    norm_num [gwrGo, oc503const, e503sample, retryWait, GenError.isNotFound,
      GenError.transient, min_def]
  · rintro c r ⟨h0, h1, h2⟩
    rw [pow_zero, mul_one] at h0
    subst h0
    rw [pow_one] at h1
    have hr : r = 2 := by linarith
    subst hr
    norm_num at h2

/-- Claim C3 (amended): each single-model generate call retries at most a
fixed bound (2 retries / 3 attempts in the interview route, 3 retries / 4
attempts in the blueprint route), and only transient failures (HTTP 429 or
503) are ever retried; each retry waits `min(cap, hint)` seconds when the
error message carries a `retry in Ns` hint, otherwise `min(cap, 2 +
2·attempt)` — a linearly (not exponentially) increasing default — with the
cap fixed at 20 s (interview route) or 30 s (blueprint route); any failure
class other than transient (including NotFound) is returned immediately,
fatal, with no retry and no wait. -/
theorem C3_retry_policy (oc : Nat → GenOutcome) :
    ((generateWithRetry oc).attempts ≤ 3 ∧ (generateWithRetryBp oc).attempts ≤ 4) ∧
    (∀ i, i + 1 < (generateWithRetry oc).attempts →
        ∃ e, oc i = GenOutcome.failure e ∧ e.transient = true) ∧
    (∀ i, i + 1 < (generateWithRetryBp oc).attempts →
        ∃ e, oc i = GenOutcome.failure e ∧ e.transient = true) ∧
    (∀ i, i < (generateWithRetry oc).waits.length →
        ∃ e, oc i = GenOutcome.failure e ∧ e.transient = true ∧
          (generateWithRetry oc).waits.getD i 0 = retryWait 20 i e) ∧
    (∀ i, i < (generateWithRetryBp oc).waits.length →
        ∃ e, oc i = GenOutcome.failure e ∧ e.transient = true ∧
          (generateWithRetryBp oc).waits.getD i 0 = retryWait 30 i e) ∧
    (∀ e, oc 0 = GenOutcome.failure e → e.transient = false →
        generateWithRetry oc = ⟨RetryResult.failed true e, [], 1⟩ ∧
        generateWithRetryBp oc = ⟨RetryResult.failed true e, [], 1⟩) := by
  refine ⟨⟨gwrGo_attempts_le oc 2 20 3 0, gwrGo_attempts_le oc 3 30 4 0⟩, ?_, ?_, ?_, ?_, ?_⟩
  · intro i h
    simpa using gwrGo_retried_transient oc 2 20 3 0 i h
  · intro i h
    simpa using gwrGo_retried_transient oc 3 30 4 0 i h
  · intro i h
    simpa using gwrGo_wait_spec oc 2 20 3 0 i h
  · intro i h
    simpa using gwrGo_wait_spec oc 3 30 4 0 i h
  · intro e hoc ht
    exact ⟨gwrGo_immediate oc 2 20 2 0 e hoc ht, gwrGo_immediate oc 3 30 3 0 e hoc ht⟩

/-- Witness for C3 at the all-503 outcome trace: the first backoff wait of
the interview-route gateway follows the `retryWait` law. -/
theorem C3_witness :
    ∃ e, oc503const 0 = GenOutcome.failure e ∧ e.transient = true ∧
      (generateWithRetry oc503const).waits.getD 0 0 = retryWait 20 0 e :=
  (C3_retry_policy oc503const).2.2.2.1 0 (by decide)

/-- Counterexample to claim C4 as stated: the "surfaced only if every
identifier exhausted" clause fails.  With results [404 failure, success
with empty text, success with usable text], the blueprint loop ends in the
post-loop "no model succeeded" 500 whose detail is the NotFound message,
while the third identifier — a success — was never tried: the NotFound
error is surfaced although not every identifier in the list was
exhausted. -/
theorem C4_counterexample :
    bpLoopFull
        [RetryResult.failed true e404sample, RetryResult.ok "",
         RetryResult.ok "usable model output"] none =
      BpLoopOut.noRaw (some e404sample) ∧
    e404sample.isNotFound = true ∧
    isContinueResult (RetryResult.ok "usable model output") = false := by
  decide

/-- Claim C4 (amended): a generate call failing with NotFound (404) returns
immediately — fatal, no retry, no backoff wait — in both gateway variants;
the blueprint caller advances past a fatal 404 result to the next candidate
identifier; a NotFound error never causes the loop's early error return
(the early 500 carries only non-404 errors); and when every identifier in
the list fails with a continuing failure (404 or exhausted transient
retries) the loop ends in the post-loop "no model succeeded" response,
which is the only place a NotFound error is surfaced — though if a model
returns an empty-text success, that same response can surface an earlier
NotFound while later identifiers remain untried. -/
theorem C4_notfound_policy :
    (∀ (oc : Nat → GenOutcome) (e : GenError),
        oc 0 = GenOutcome.failure e → e.isNotFound = true →
        generateWithRetry oc = ⟨RetryResult.failed true e, [], 1⟩ ∧
        generateWithRetryBp oc = ⟨RetryResult.failed true e, [], 1⟩) ∧
    (∀ (e : GenError) (rs : List RetryResult) (last : Option GenError),
        e.isNotFound = true →
        bpLoopFull (RetryResult.failed true e :: rs) last = bpLoopFull rs (some e)) ∧
    (∀ (results : List RetryResult) (last : Option GenError) (e : GenError),
        bpLoopFull results last = BpLoopOut.earlyFatal e → e.isNotFound = false) ∧
    (∀ (results : List RetryResult) (last : Option GenError),
        (∀ r ∈ results, isContinueResult r = true) →
        ∃ l, bpLoopFull results last = BpLoopOut.noRaw l) := by
  refine ⟨?_, ?_, bpLoopFull_earlyFatal_not404, bpLoopFull_all_continue⟩
  · intro oc e hoc h404
    constructor <;> simp [generateWithRetry, generateWithRetryBp, gwrGo, hoc, h404]
  · intro e rs last h404
    simp [bpLoopFull, h404]

/-- Witness for C4: the caller's loop advances past a concrete fatal 404
result without stopping. -/
theorem C4_witness :
    bpLoopFull [RetryResult.failed true e404sample] none =
      bpLoopFull [] (some e404sample) :=
  C4_notfound_policy.2.1 e404sample [] none (by decide)

/-- Counterexample to claim C8 as stated: the interview API's validation
accepts a start request whose blueprint has
`likely_interview_type = behavioral_case` together with `mode = technical`
(mode is never checked against the blueprint), and the voice-mode interview
page offers "technical" in its mode dropdown unconditionally — so the
combination is neither rejected nor unselectable in the cited code. -/
theorem C8_counterexample :
    routeAccepts ⟨some Step.start, "Acme", Mode.technical, some bpCaseSample⟩ = true ∧
    Mode.technical ∈ voicePageModeOptions := by
  decide

/-- Claim C8 (amended): the mode dropdown of the main interview page
restricts the selectable modes via `allowedModes`, so for a blueprint with
`likely_interview_type = behavioral_case` the mode "technical" is not
selectable there; the API route itself, however, validates only
step/company/blueprint — its acceptance is independent of the mode — and
the voice-mode page variant offers all three modes unconditionally. -/
theorem C8_mode_restriction :
    (∀ bp : Blueprint, bp.likely_interview_type = InterviewType.behavioral_case →
        Mode.technical ∉ allowedModes (some bp)) ∧
    (∀ (r : InterviewReqHead) (m : Mode),
        routeAccepts { r with mode := m } = routeAccepts r) := by
  constructor
  · intro bp h
    simp [allowedModes, h]
  · intro r m
    rfl

/-- Witness for C8 at the concrete behavioral-case blueprint. -/
theorem C8_witness : Mode.technical ∉ allowedModes (some bpCaseSample) :=
  C8_mode_restriction.1 bpCaseSample rfl

/-- Claim C9: the blueprint generator parses model output by slicing from
the first opening brace to the last closing brace and JSON-decoding that
substring; a decode failure yields an HTTP 200 response carrying an error
message, the raw model text and the parse error; missing required inputs
yield a 400 response; and configuration or model failures yield 500
responses. -/
theorem C9_blueprint_responses (decode : List Char → Except String Blueprint)
    (resumeText jobDescription company : String) (apiKey : Option String)
    (results : List RetryResult) :
    (∀ (raw : String) (s e : Nat),
        firstIdxOf openBraceChar raw.data = some s →
        lastIdxOf closeBraceChar raw.data = some e →
        safeJsonParse decode raw = decode ((raw.data.drop s).take (e + 1 - s))) ∧
    (resumeText = "" ∨ jobDescription = "" ∨ company = "" →
        bpPost decode resumeText jobDescription company apiKey results =
          ⟨400, BpBody.missingInputs⟩) ∧
    (resumeText ≠ "" → jobDescription ≠ "" → company ≠ "" →
      (apiKey = none →
          bpPost decode resumeText jobDescription company apiKey results =
            ⟨500, BpBody.missingKey⟩) ∧
      (∀ k e, apiKey = some k → bpLoopFull results none = BpLoopOut.earlyFatal e →
          bpPost decode resumeText jobDescription company apiKey results =
            ⟨500, BpBody.modelError e.msg⟩) ∧
      (∀ k l, apiKey = some k → bpLoopFull results none = BpLoopOut.noRaw l →
          bpPost decode resumeText jobDescription company apiKey results =
            ⟨500, BpBody.noModel (l.map GenError.msg)⟩) ∧
      (∀ k raw perr, apiKey = some k → bpLoopFull results none = BpLoopOut.gotRaw raw →
          safeJsonParse decode raw = Except.error perr →
          bpPost decode resumeText jobDescription company apiKey results =
            ⟨200, BpBody.parseFailure "Invalid JSON from model" raw perr⟩) ∧
      (∀ k raw bp, apiKey = some k → bpLoopFull results none = BpLoopOut.gotRaw raw →
          safeJsonParse decode raw = Except.ok bp →
          bpPost decode resumeText jobDescription company apiKey results =
            ⟨200, BpBody.blueprintOk bp⟩)) := by
  refine ⟨?_, ?_, ?_⟩
  · intro raw s e hs he
    simp [safeJsonParse, hs, he]
  · intro h
    simp [bpPost, h]
  · intro h1 h2 h3
    refine ⟨?_, ?_, ?_, ?_, ?_⟩
    · intro hk
      simp [bpPost, h1, h2, h3, hk]
    · intro k e hk hloop
      simp [bpPost, h1, h2, h3, hk, hloop]
    · intro k l hk hloop
      simp [bpPost, h1, h2, h3, hk, hloop]
    · intro k raw perr hk hloop hparse
      simp [bpPost, h1, h2, h3, hk, hloop, hparse]
    · intro k raw bp hk hloop hparse
      simp [bpPost, h1, h2, h3, hk, hloop, hparse]

/-- Witness for C9 at a concrete request with a missing input. -/
theorem C9_witness :
    bpPost rejectDecode "" "a job description" "Acme" none [] =
      ⟨400, BpBody.missingInputs⟩ :=
  (C9_blueprint_responses rejectDecode "" "a job description" "Acme" none []).2.1
    (Or.inl rfl)
